import Mathlib

/-!
# Verification of the multi-objective Pareto optimization engine

Shallow embedding of `backend/binder_optimization/optimization/pareto.py`
(`class ParetoOptimizer`).  Tables are modelled by `Pareto.DataFrame`:
an ordered list of candidate rows (a `design_id` string paired with the
numeric cells, aligned with `columns`), plus the two engine-owned augmented
columns `pareto_optimal` and `pareto_rank` as optional parallel lists
(`none` models "column absent").  Numeric cells are rationals.

Methods that mutate the caller's table in place are modelled by explicit
state passing: they return a pair `(result, callerTableAfterTheCall)`.
`find_pareto_frontier` writes its column into the caller's table, so its
second component carries the augmented table; `rank_pareto_layers` works on
`df.copy()`, so its second component is the unchanged input.

Python exceptions are modelled by `Except` with the error kinds the code
can actually raise (`ValueError` for the fewer-than-two-objectives guard,
pandas `KeyError` for a missing requested column), plus the spec's
`EmptyDataset` kind, which is needed to state claims about it.  The
frontier-percentage summary `num_pareto/len(df)*100` divides NumPy scalars,
so on a zero-candidate table it evaluates to `nan` with a `RuntimeWarning`
(the repository never calls `np.seterr`) instead of raising, and
`find_pareto_frontier` returns normally with the empty column added.
-/

namespace Pareto

/-- Error kinds for the modelled exceptions of `ParetoOptimizer`. -/
inductive PError where
  /-- `ValueError("Need at least 2 objectives for Pareto optimization")`. -/
  | invalidObjectiveCount
  /-- pandas `KeyError`: a requested objective column is absent from the table. -/
  | keyError
  /-- The spec's `EmptyDataset` error kind.  The source never raises it;
  it is declared so claims about it can be stated. -/
  | emptyDataset
deriving DecidableEq

/-- A pandas DataFrame as used by `ParetoOptimizer`: named numeric columns,
rows of `(design_id, cells)`, and the two augmented columns the engine may add. -/
structure DataFrame where
  columns : List String
  rows : List (String × List ℚ)
  pareto_optimal : Option (List Bool) := none
  pareto_rank : Option (List Int) := none
deriving DecidableEq

/-- The `ParetoOptimizer` configuration: objective column names and the
direction map (`True` = maximize), looked up with default `True`. -/
structure ParetoOptimizer where
  objectives : List String
  maximize : List (String × Bool)
deriving DecidableEq

deriving instance DecidableEq for Except

/-- Default objective list from `ParetoOptimizer.__init__`. -/
def defaultObjectives : List String :=
  ["design_to_target_iptm", "selectivity_composite"]

/-- Default direction map from `ParetoOptimizer.__init__`. -/
def defaultMaximize : List (String × Bool) :=
  [("design_to_target_iptm", true), ("selectivity_composite", true),
   ("min_design_to_target_pae", false), ("delta_sasa_refolded", true),
   ("solubility", true), ("stability", true)]

/-- `objectives = [obj for obj in self.objectives if obj in df.columns]`
when the argument is `None`, otherwise the explicit argument unchanged. -/
def activeObjectives (opt : ParetoOptimizer) (df : DataFrame)
    (objsArg : Option (List String)) : List String :=
  match objsArg with
  | none => opt.objectives.filter fun o => df.columns.contains o
  | some l => l

/-- One candidate's objective vector: `df[objectives]` for a single row
(cells addressed by the position of each objective name in `columns`). -/
def rowVec (columns objs : List String) (r : String × List ℚ) : List ℚ :=
  objs.map fun o => r.2.getD (columns.indexOf o) 0

/-- `df[objectives].values`: the objective matrix, one row per candidate. -/
def rawMatrix (df : DataFrame) (objs : List String) : List (List ℚ) :=
  df.rows.map (rowVec df.columns objs)

/-- `obj_matrix[:, i] = -obj_matrix[:, i]` for every objective with
`self.maximize.get(obj, True)` false: sign-flip minimization objectives. -/
def applySign (maximize : List (String × Bool)) (objs : List String)
    (row : List ℚ) : List ℚ :=
  List.zipWith (fun o v => if (maximize.lookup o).getD true then v else -v) objs row

/-- The sign-normalized objective matrix handed to `_is_pareto_efficient`. -/
def signedMatrix (maximize : List (String × Bool)) (df : DataFrame)
    (objs : List String) : List (List ℚ) :=
  (rawMatrix df objs).map (applySign maximize objs)

/-- `np.any(row > c) or np.all(row == c)`: row `r` survives the elimination
pass of pivot `c` iff it strictly beats `c` somewhere or equals it everywhere. -/
def survivesPass (c r : List ℚ) : Bool :=
  ((List.range r.length).any fun i => decide (c.getD i 0 < r.getD i 0))
  || ((List.range r.length).all fun i => decide (r.getD i 0 = c.getD i 0))

/-- One iteration of the `_is_pareto_efficient` sweep: if candidate `i` is
still marked efficient, the masked assignment
`is_efficient[is_efficient] = np.any(costs[is_efficient] > c, axis=1) |
np.all(costs[is_efficient] == c, axis=1)` keeps a currently-efficient row
exactly when it survives the pass of pivot `costs[i]`; rows already cleared
stay cleared. -/
def sweepAt (costs : List (List ℚ)) (eff : List Bool) (i : Nat) : List Bool :=
  if eff.getD i false then
    (List.range eff.length).map fun j =>
      eff.getD j false && survivesPass (costs.getD i []) (costs.getD j [])
  else eff

/-- `ParetoOptimizer._is_pareto_efficient`: start with every candidate marked
efficient and run the elimination pass for each index in order. -/
def is_pareto_efficient (costs : List (List ℚ)) : List Bool :=
  (List.range costs.length).foldl (sweepAt costs) (List.replicate costs.length true)

/-- The state of the `_is_pareto_efficient` sweep after the passes of the
first `m` candidate indices (so `is_pareto_efficient costs` is
`effUpTo costs costs.length`). -/
def effUpTo (costs : List (List ℚ)) (m : Nat) : List Bool :=
  (List.range m).foldl (sweepAt costs) (List.replicate costs.length true)

/-- The dominance relation of the design contract, as a boolean test:
`q` dominates `p` iff `q ≥ p` on every objective and `q > p` on at least one
(indices taken over `p`'s length). -/
def dominates (q p : List ℚ) : Bool :=
  ((List.range p.length).all fun i => decide (p.getD i 0 ≤ q.getD i 0))
  && ((List.range p.length).any fun i => decide (p.getD i 0 < q.getD i 0))

/-- Candidate `j` of the matrix is dominated by no candidate of the matrix. -/
def nonDominatedIn (costs : List (List ℚ)) (j : Nat) : Bool :=
  !((List.range costs.length).any fun i =>
    dominates (costs.getD i []) (costs.getD j []))

/-- Vector `v` is dominated by no row of the matrix. -/
def rowNonDominated (costs : List (List ℚ)) (v : List ℚ) : Bool :=
  !(costs.any fun w => dominates w v)

/-- The sign-normalized objective matrix a given call of
`find_pareto_frontier` feeds to `_is_pareto_efficient`. -/
def frontierMatrix (opt : ParetoOptimizer) (df : DataFrame)
    (objsArg : Option (List String)) : List (List ℚ) :=
  signedMatrix opt.maximize df (activeObjectives opt df objsArg)

/-- `ParetoOptimizer.find_pareto_frontier`.  Returns
`(modelled exception or result, caller's table after the call)`.  The
fewer-than-two guard and the `df[objectives]` lookup happen before the
`pareto_optimal` column is assigned; past them the call always succeeds —
on a zero-candidate table the percentage summary computes NumPy `nan`
rather than raising, so the function still returns the table with the
(then empty) `pareto_optimal` column added. -/
def find_pareto_frontier (opt : ParetoOptimizer) (df : DataFrame)
    (objsArg : Option (List String)) : Except PError DataFrame × DataFrame :=
  let objs := activeObjectives opt df objsArg
  if objs.length < 2 then (Except.error PError.invalidObjectiveCount, df)
  else if !(objs.all fun o => df.columns.contains o) then
    (Except.error PError.keyError, df)
  else
    let mask := is_pareto_efficient (signedMatrix opt.maximize df objs)
    let df' := { df with pareto_optimal := some mask }
    (Except.ok df', df')

/-- One iteration of the `rank_pareto_layers` loop at layer index `layer`,
on the state `(pareto_rank column, remaining_mask)`: if any candidate is
still unranked, take the frontier of the unranked rows
(`remaining_df = df_copy[remaining_mask]`), stamp its members with the
current layer (`df_copy.loc[pareto_indices, 'pareto_rank'] = layer`) and
clear them from the mask; with every candidate ranked the loop has exited
and the state is unchanged. -/
def rankStep (maximize : List (String × Bool)) (columns : List String)
    (allRows : List (String × List ℚ)) (objs : List String)
    (st : List Int × List Bool) (layer : Nat) : List Int × List Bool :=
  if st.2.any id then
    let idxs := (List.range allRows.length).filter fun i => st.2.getD i false
    let m := idxs.map fun i => rowVec columns objs (allRows.getD i ("", []))
    let signed := m.map (applySign maximize objs)
    let mask := is_pareto_efficient signed
    let paretoIdxs := ((idxs.zip mask).filter fun p => p.2).map fun p => p.1
    ((List.range st.1.length).map fun i =>
      if paretoIdxs.contains i then (layer : Int) else st.1.getD i (-1),
     (List.range st.2.length).map fun i =>
      if paretoIdxs.contains i then false else st.2.getD i false)
  else st

/-- `ParetoOptimizer.rank_pareto_layers`.  Works on `df.copy()` with
`pareto_rank` initialized to the sentinel `-1`, so the pair's second
component (the caller's table after the call) is the unchanged input.
The `while` loop increments `layer` and breaks once `layer > 10`, so its
body runs for the layer indices `0, 1, ..., 10` (eleven layers at most),
stopping earlier only when no unranked candidate remains. -/
def rank_pareto_layers (opt : ParetoOptimizer) (df : DataFrame)
    (objsArg : Option (List String)) : DataFrame × DataFrame :=
  let objs := activeObjectives opt df objsArg
  let st := (List.range 11).foldl
    (rankStep opt.maximize df.columns df.rows objs)
    (List.replicate df.rows.length (-1), List.replicate df.rows.length true)
  ({ df with pareto_rank := some st.1 }, df)

/-- `df[df['pareto_optimal']]`: the sub-table of rows whose flag is set
(the flag column itself and `pareto_rank`, when present, are filtered too). -/
def filteredByMask (df : DataFrame) : DataFrame :=
  let mask := df.pareto_optimal.getD []
  { columns := df.columns
    rows := ((df.rows.zip mask).filter fun p => p.2).map fun p => p.1
    pareto_optimal := df.pareto_optimal.map fun l => l.filter fun b => b
    pareto_rank := df.pareto_rank.map fun l =>
      ((l.zip mask).filter fun p => p.2).map fun p => p.1 }

/-- Column minimum of the objective matrix (`obj_matrix.min(axis=0)`). -/
def colMin (m : List (List ℚ)) (c : Nat) : ℚ :=
  match m.map fun r => r.getD c 0 with
  | [] => 0
  | x :: xs => xs.foldl min x

/-- Column maximum of the objective matrix (`obj_matrix.max(axis=0)`). -/
def colMax (m : List (List ℚ)) (c : Nat) : ℚ :=
  match m.map fun r => r.getD c 0 with
  | [] => 0
  | x :: xs => xs.foldl max x

/-- `(obj_matrix - min) / (max - min + 1e-10)`: min-max normalization of
every objective over the Pareto subset, with the fixed epsilon guard. -/
def normalizeObjectives (m : List (List ℚ)) : List (List ℚ) :=
  m.map fun r => (List.range r.length).map fun c =>
    (r.getD c 0 - colMin m c) / (colMax m c - colMin m c + 1 / 10000000000)

/-- `np.argmax`: index of the first occurrence of the maximum value. -/
def argmaxIdx (l : List ℚ) : Nat :=
  (List.range l.length).foldl
    (fun best i => if l.getD best 0 < l.getD i 0 then i else best) 0

/-- Squared Euclidean distance between two points of normalized objective
space.  The source compares `np.linalg.norm` distances; the greedy
argmax-of-min selection is unchanged by the strictly monotone square root,
so the model works with squared distances to stay within `ℚ`. -/
def sqDist (a b : List ℚ) : ℚ :=
  ((a.zip b).map fun p => (p.1 - p.2) ^ 2).sum

/-- Minimum (squared) distance from point `j` to the already-selected points. -/
def minSqDistTo (sel : List Nat) (norm : List (List ℚ)) (j : Nat) : ℚ :=
  match sel.map fun s => sqDist (norm.getD j []) (norm.getD s []) with
  | [] => 0
  | x :: xs => xs.foldl min x

/-- The `for _ in range(num_designs - 1)` greedy farthest-point loop:
stop early when the pool is exhausted, give already-selected designs the
sentinel distance `-1`, and append the argmax of minimum distance. -/
def selectLoop (norm : List (List ℚ)) (sel : List Nat) : Nat → List Nat
  | 0 => sel
  | steps + 1 =>
    if norm.length ≤ sel.length then sel
    else
      let distances := (List.range norm.length).map fun j =>
        if sel.contains j then (-1 : ℚ) else minSqDistTo sel norm j
      selectLoop norm (sel ++ [argmaxIdx distances]) steps

/-- `ParetoOptimizer.select_representative_designs`: the Pareto-optimal
subset is returned unchanged when its size is at most `num_designs`;
otherwise the greedy farthest-point selection picks `num_designs` rows
(`pareto_df.iloc[selected_indices]`), starting from the design with the
highest sum of normalized objectives. -/
def select_representative_designs (opt : ParetoOptimizer) (df : DataFrame)
    (num_designs : Nat) (objsArg : Option (List String)) : DataFrame :=
  let objs := activeObjectives opt df objsArg
  let pareto_df := filteredByMask df
  if pareto_df.rows.length ≤ num_designs then pareto_df
  else
    let m := rawMatrix pareto_df objs
    let norm := normalizeObjectives m
    let scores := norm.map fun row => row.sum
    let selected := selectLoop norm [argmaxIdx scores] (num_designs - 1)
    { columns := pareto_df.columns
      rows := selected.map fun i => pareto_df.rows.getD i ("", [])
      pareto_optimal := pareto_df.pareto_optimal.map fun l =>
        selected.map fun i => l.getD i false
      pareto_rank := pareto_df.pareto_rank.map fun l =>
        selected.map fun i => l.getD i (-1) }

/-- The `design_id`s of the rows marked `pareto_optimal` in a table. -/
def paretoIds (df : DataFrame) : List String :=
  match df.pareto_optimal with
  | some mask => ((df.rows.zip mask).filter fun p => p.2).map fun p => p.1.1
  | none => []

/-- Arithmetic mean of a list of reals. -/
noncomputable def listMean (xs : List ℝ) : ℝ := xs.sum / xs.length

/-- Pearson correlation coefficient of two paired samples, as computed by
`pandas.DataFrame.corr`: centered cross moment over the product of the
root centered second moments. -/
noncomputable def pearson (xs ys : List ℝ) : ℝ :=
  let mx := listMean xs
  let my := listMean ys
  ((xs.zip ys).map fun p => (p.1 - mx) * (p.2 - my)).sum /
    (Real.sqrt ((xs.map fun x => (x - mx) ^ 2).sum) *
     Real.sqrt ((ys.map fun y => (y - my) ^ 2).sum))

/-- The trade-off classification of `analyze_trade_offs`:
`corr < -0.3`, `corr > 0.3`, otherwise — with the exact label strings of the
source. -/
noncomputable def tradeOffLabel (corr : ℝ) : String :=
  if corr < -(3 / 10) then "Strong trade-off (negative correlation)"
  else if corr > 3 / 10 then "Aligned objectives (positive correlation)"
  else "Independent objectives"

/-- The `trade_offs` entry of `analyze_trade_offs` for one objective pair:
Pearson correlation of the two columns restricted to the
`df[df['pareto_optimal']]` subset, then classified. -/
noncomputable def analyzeTradeOffLabel (df : DataFrame) (o1 o2 : String) : String :=
  let pdf := filteredByMask df
  let xs := pdf.rows.map fun r => ((r.2.getD (pdf.columns.indexOf o1) 0 : ℚ) : ℝ)
  let ys := pdf.rows.map fun r => ((r.2.getD (pdf.columns.indexOf o2) 0 : ℚ) : ℝ)
  tradeOffLabel (pearson xs ys)

/-! ## Concrete tables and optimizers used by the claim theorems -/

/-- Scenario-A optimizer: two maximize objectives (empty direction map, so
every lookup defaults to `True`). -/
def c1Opt : ParetoOptimizer := { objectives := ["a", "b"], maximize := [] }

/-- Scenario-A table: A=(0.9,0.5), B=(0.5,0.9), C=(0.3,0.3), D=(0.9,0.5). -/
def c1Df : DataFrame :=
  { columns := ["a", "b"]
    rows := [("A", [Rat.divInt 9 10, Rat.divInt 1 2]), ("B", [Rat.divInt 1 2, Rat.divInt 9 10]),
             ("C", [Rat.divInt 3 10, Rat.divInt 3 10]), ("D", [Rat.divInt 9 10, Rat.divInt 1 2])] }

/-- Scenario-A expected output table: frontier `{A, B, D}`. -/
def c1Df' : DataFrame := { c1Df with pareto_optimal := some [true, true, false, true] }

/-- Mixed-direction optimizer: objective 1 maximize, objective 2 minimize. -/
def c3Opt : ParetoOptimizer :=
  { objectives := ["o1", "o2"], maximize := [("o1", true), ("o2", false)] }

/-- Scenario-B table: X=(0.8, 10.0), Y=(0.8, 20.0). -/
def c3Df : DataFrame :=
  { columns := ["o1", "o2"]
    rows := [("X", [Rat.divInt 4 5, 10]), ("Y", [Rat.divInt 4 5, 20])] }

/-- Scenario-B expected output: X optimal, Y not. -/
def c3Df' : DataFrame := { c3Df with pareto_optimal := some [true, false] }

/-- C4 counterexample data: a chain of twelve candidates, each strictly
dominating the next, so every Pareto layer is a single candidate. -/
def c4Opt : ParetoOptimizer := { objectives := ["a", "b"], maximize := [] }

/-- Twelve totally-ordered candidates. -/
def c4Df : DataFrame :=
  { columns := ["a", "b"]
    rows := [("r0", [12, 12]), ("r1", [11, 11]), ("r2", [10, 10]), ("r3", [9, 9]),
             ("r4", [8, 8]), ("r5", [7, 7]), ("r6", [6, 6]), ("r7", [5, 5]),
             ("r8", [4, 4]), ("r9", [3, 3]), ("r10", [2, 2]), ("r11", [1, 1])] }

/-- C6 example optimizer. -/
def c6Opt : ParetoOptimizer := { objectives := ["a", "b"], maximize := [] }

/-- An empty table that still has the two requested objective columns. -/
def c6Df : DataFrame := { columns := ["a", "b"], rows := [] }

/-- C7 example optimizer, using the source's default configuration. -/
def c7Opt : ParetoOptimizer :=
  { objectives := defaultObjectives, maximize := defaultMaximize }

/-- A one-column table: none of the default objectives is present, and of an
explicit request `["a", "zzz"]` only `"a"` exists. -/
def c7Df : DataFrame := { columns := ["a"], rows := [("r1", [1])] }

/-- C9 example optimizer. -/
def c9Opt : ParetoOptimizer := { objectives := ["a", "b"], maximize := [] }

/-- A table whose Pareto subset `{A, B}` has size 2 ≤ 5. -/
def c9Df : DataFrame :=
  { columns := ["a", "b"]
    rows := [("A", [3, 1]), ("B", [1, 3]), ("C", [0, 0])]
    pareto_optimal := some [true, true, false] }

/-- C10 example optimizer. -/
def c10Opt : ParetoOptimizer := { objectives := ["a", "b"], maximize := [] }

/-- A two-candidate table without a `pareto_optimal` column. -/
def c10Df : DataFrame := { columns := ["a", "b"], rows := [("A", [1, 2]), ("B", [2, 1])] }

/-- C8 example optimizer. -/
def c8Opt : ParetoOptimizer := { objectives := ["a", "b"], maximize := [] }

/-- A two-candidate table. -/
def c8Df : DataFrame := { columns := ["a", "b"], rows := [("A", [3, 1]), ("B", [1, 3])] }

/-- The same table with the candidate rows swapped. -/
def c8Df2 : DataFrame := { columns := ["a", "b"], rows := [("B", [1, 3]), ("A", [3, 1])] }

/-- A frontier table whose two objectives are perfectly anti-correlated. -/
def c5Df : DataFrame :=
  { columns := ["o1", "o2"]
    rows := [("a", [0, 1]), ("b", [1, 0])]
    pareto_optimal := some [true, true] }

/-! ## Basic list access lemmas -/

theorem getD_range_map {α : Type} (f : Nat → α) (d : α) (n j : Nat) (h : j < n) :
    ((List.range n).map f).getD j d = f j := by
  simp [List.getD_eq_getElem?_getD, List.getElem?_map, List.getElem?_range h]

theorem getD_replicate_of_lt {α : Type} (a d : α) (n j : Nat) (h : j < n) :
    (List.replicate n a).getD j d = a := by
  simp [List.getD_eq_getElem?_getD, List.getElem?_replicate, h]

theorem getD_eq_getElem_of_lt {α : Type} (l : List α) (d : α) {j : Nat}
    (h : j < l.length) : l.getD j d = l[j] := by
  simp [List.getD_eq_getElem?_getD, List.getElem?_eq_getElem h]

theorem getD_mem_of_lt {α : Type} (l : List α) (d : α) {j : Nat}
    (h : j < l.length) : l.getD j d ∈ l := by
  rw [getD_eq_getElem_of_lt l d h]
  exact List.getElem_mem h

/-! ## The dominance relation -/

theorem dominates_iff (q p : List ℚ) :
    dominates q p = true ↔
      (∀ i, i < p.length → p.getD i 0 ≤ q.getD i 0)
      ∧ (∃ i, i < p.length ∧ p.getD i 0 < q.getD i 0) := by
  simp [dominates, List.any_eq_true, List.all_eq_true, List.mem_range]

theorem dominates_irrefl (a : List ℚ) : dominates a a = false := by
  rw [Bool.eq_false_iff, Ne, dominates_iff]
  rintro ⟨-, i, -, h⟩
  exact lt_irrefl _ h

theorem dominates_trans {a b c : List ℚ} (hlen : c.length ≤ b.length)
    (h1 : dominates a b = true) (h2 : dominates b c = true) :
    dominates a c = true := by
  rw [dominates_iff] at h1 h2 ⊢
  obtain ⟨hab, -⟩ := h1
  obtain ⟨hbc, i, hi, hlt⟩ := h2
  exact ⟨fun j hj => le_trans (hbc j hj) (hab j (lt_of_lt_of_le hj hlen)),
    i, hi, lt_of_lt_of_le hlt (hab i (lt_of_lt_of_le hi hlen))⟩

theorem survivesPass_eq_false_iff (c r : List ℚ) :
    survivesPass c r = false ↔ dominates c r = true := by
  have h1 : survivesPass c r = true ↔
      (∃ i, i < r.length ∧ c.getD i 0 < r.getD i 0)
      ∨ (∀ i, i < r.length → r.getD i 0 = c.getD i 0) := by
    simp [survivesPass, List.any_eq_true, List.all_eq_true, List.mem_range]
  rw [Bool.eq_false_iff, Ne, h1, dominates_iff]
  push_neg
  constructor
  · rintro ⟨hle, i, hi, hne⟩
    exact ⟨hle, i, hi, lt_of_le_of_ne (hle i hi) hne⟩
  · rintro ⟨hle, i, hi, hlt⟩
    exact ⟨hle, i, hi, ne_of_lt hlt⟩

theorem survivesPass_eq_true_of_not_dominates {c r : List ℚ}
    (h : dominates c r = false) : survivesPass c r = true := by
  cases hs : survivesPass c r with
  | true => rfl
  | false => rw [(survivesPass_eq_false_iff c r).1 hs] at h; cases h

theorem nonDominatedIn_iff (costs : List (List ℚ)) (j : Nat) :
    nonDominatedIn costs j = true ↔
      ∀ i, i < costs.length →
        dominates (costs.getD i []) (costs.getD j []) = false := by
  simp [nonDominatedIn, List.any_eq_false, List.mem_range]

/-! ## A finite set of candidates has maximal (non-dominated) elements -/

theorem exists_maximal_mem (R : Nat → Nat → Prop) (l : List Nat) (hne : l ≠ [])
    (htrans : ∀ a ∈ l, ∀ b ∈ l, ∀ c ∈ l, R a b → R b c → R a c)
    (hirr : ∀ a ∈ l, ¬R a a) :
    ∃ z ∈ l, ∀ w ∈ l, ¬R w z := by
  induction l with
  | nil => exact absurd rfl hne
  | cons a t ih =>
    by_cases ht : t = []
    · subst ht
      refine ⟨a, List.mem_cons_self a [], fun w hw hR => ?_⟩
      have hwa : w = a := List.mem_singleton.mp hw
      subst hwa
      exact hirr w (List.mem_cons_self w []) hR
    · obtain ⟨z, hz, hmax⟩ := ih ht
        (fun x hx y hy c hc => htrans x (List.Mem.tail a hx) y (List.Mem.tail a hy)
          c (List.Mem.tail a hc))
        (fun x hx => hirr x (List.Mem.tail a hx))
      by_cases haz : R a z
      · refine ⟨a, List.mem_cons_self a t, fun w hw hRwa => ?_⟩
        rcases List.mem_cons.mp hw with hwa | hw'
        · subst hwa
          exact hirr w (List.mem_cons_self w t) hRwa
        · exact hmax w hw'
            (htrans w (List.Mem.tail a hw') a (List.mem_cons_self a t)
              z (List.Mem.tail a hz) hRwa haz)
      · refine ⟨z, List.Mem.tail a hz, fun w hw hRwz => ?_⟩
        rcases List.mem_cons.mp hw with hwa | hw'
        · subst hwa
          exact haz hRwz
        · exact hmax w hw' hRwz

theorem exists_nondominated_dominator (costs : List (List ℚ)) (k : Nat)
    (hk : ∀ r ∈ costs, r.length = k) {j : Nat} (hj : j < costs.length)
    (h : ∃ i, i < costs.length ∧
      dominates (costs.getD i []) (costs.getD j []) = true) :
    ∃ z, z < costs.length ∧
      dominates (costs.getD z []) (costs.getD j []) = true
      ∧ nonDominatedIn costs z = true := by
  obtain ⟨i, hi, hdom⟩ := h
  have hlenD : ∀ x, x < costs.length → (costs.getD x []).length = k :=
    fun x hx => hk _ (getD_mem_of_lt costs [] hx)
  have hiS : i ∈ (List.range costs.length).filter
      (fun i => dominates (costs.getD i []) (costs.getD j [])) :=
    List.mem_filter.mpr ⟨List.mem_range.mpr hi, hdom⟩
  obtain ⟨z, hzS, hmax⟩ := exists_maximal_mem
    (fun w z => dominates (costs.getD w []) (costs.getD z []) = true)
    ((List.range costs.length).filter
      (fun i => dominates (costs.getD i []) (costs.getD j [])))
    (List.ne_nil_of_mem hiS)
    (fun a ha b hb c hc hab hbc => by
      have ha' := List.mem_range.mp (List.mem_filter.mp ha).1
      have hb' := List.mem_range.mp (List.mem_filter.mp hb).1
      have hc' := List.mem_range.mp (List.mem_filter.mp hc).1
      exact dominates_trans (le_of_eq ((hlenD c hc').trans (hlenD b hb').symm)) hab hbc)
    (fun a _ ha => by
      have ha' : dominates (costs.getD a []) (costs.getD a []) = true := ha
      rw [dominates_irrefl] at ha'
      cases ha')
  have hzmem := List.mem_filter.mp hzS
  have hzlt := List.mem_range.mp hzmem.1
  refine ⟨z, hzlt, hzmem.2, (nonDominatedIn_iff costs z).mpr fun w hw => ?_⟩
  cases hd : dominates (costs.getD w []) (costs.getD z []) with
  | false => rfl
  | true =>
    exfalso
    apply hmax w _ hd
    exact List.mem_filter.mpr ⟨List.mem_range.mpr hw,
      dominates_trans (le_of_eq ((hlenD j hj).trans (hlenD z hzlt).symm)) hd hzmem.2⟩

/-! ## Correctness of the `_is_pareto_efficient` sweep -/

theorem effUpTo_succ (costs : List (List ℚ)) (m : Nat) :
    effUpTo costs (m + 1) = sweepAt costs (effUpTo costs m) m := by
  rw [effUpTo, effUpTo, List.range_succ, List.foldl_append, List.foldl_cons,
    List.foldl_nil]

theorem sweepAt_length (costs : List (List ℚ)) (eff : List Bool) (i : Nat) :
    (sweepAt costs eff i).length = eff.length := by
  unfold sweepAt
  split
  · simp
  · rfl

theorem effUpTo_length (costs : List (List ℚ)) (m : Nat) :
    (effUpTo costs m).length = costs.length := by
  induction m with
  | zero => simp [effUpTo]
  | succ m ih => rw [effUpTo_succ, sweepAt_length]; exact ih

theorem is_pareto_efficient_eq_effUpTo (costs : List (List ℚ)) :
    is_pareto_efficient costs = effUpTo costs costs.length := rfl

theorem is_pareto_efficient_length (costs : List (List ℚ)) :
    (is_pareto_efficient costs).length = costs.length :=
  effUpTo_length costs costs.length

theorem effUpTo_nondominated (costs : List (List ℚ)) :
    ∀ m, m ≤ costs.length → ∀ j, j < costs.length →
    nonDominatedIn costs j = true → (effUpTo costs m).getD j false = true := by
  intro m
  induction m with
  | zero =>
    intro _ j hj _
    exact getD_replicate_of_lt true false costs.length j hj
  | succ m ih =>
    intro hm j hj hnd
    rw [effUpTo_succ]
    unfold sweepAt
    split
    · rw [getD_range_map _ _ _ _ (by rw [effUpTo_length]; exact hj),
        ih (Nat.le_of_succ_le hm) j hj hnd, Bool.true_and]
      apply survivesPass_eq_true_of_not_dominates
      exact (nonDominatedIn_iff costs j).1 hnd m (Nat.lt_of_succ_le hm)
    · exact ih (Nat.le_of_succ_le hm) j hj hnd

theorem effUpTo_no_internal (costs : List (List ℚ)) :
    ∀ m, m ≤ costs.length → ∀ j, j < m → ∀ r, r < costs.length →
    (effUpTo costs m).getD j false = true →
    (effUpTo costs m).getD r false = true →
    dominates (costs.getD j []) (costs.getD r []) = false := by
  intro m
  induction m with
  | zero => intro _ j hj; exact absurd hj (Nat.not_lt_zero j)
  | succ m ih =>
    intro hm j hj r hr hj' hr'
    rw [effUpTo_succ] at hj' hr'
    unfold sweepAt at hj' hr'
    by_cases heff : (effUpTo costs m).getD m false = true
    · rw [if_pos heff] at hj' hr'
      rw [getD_range_map _ _ _ _ (by rw [effUpTo_length]; omega)] at hj'
      rw [getD_range_map _ _ _ _ (by rw [effUpTo_length]; exact hr)] at hr'
      obtain ⟨hj1, hj2⟩ := Bool.and_eq_true_iff.mp hj'
      obtain ⟨hr1, hr2⟩ := Bool.and_eq_true_iff.mp hr'
      rcases Nat.lt_succ_iff_lt_or_eq.mp hj with hjm | hjm
      · exact ih (by omega) j hjm r hr hj1 hr1
      · subst hjm
        cases hd : dominates (costs.getD j []) (costs.getD r []) with
        | false => rfl
        | true =>
          exfalso
          rw [(survivesPass_eq_false_iff _ _).2 hd] at hr2
          cases hr2
    · rw [if_neg heff] at hj' hr'
      rcases Nat.lt_succ_iff_lt_or_eq.mp hj with hjm | hjm
      · exact ih (by omega) j hjm r hr hj' hr'
      · subst hjm
        exact absurd hj' heff

theorem is_pareto_efficient_getD (costs : List (List ℚ)) (k : Nat)
    (hk : ∀ r ∈ costs, r.length = k) {j : Nat} (hj : j < costs.length) :
    (is_pareto_efficient costs).getD j false = nonDominatedIn costs j := by
  rw [is_pareto_efficient_eq_effUpTo]
  cases hnd : nonDominatedIn costs j with
  | true => exact effUpTo_nondominated costs costs.length le_rfl j hj hnd
  | false =>
    have hdom : ∃ i, i < costs.length ∧
        dominates (costs.getD i []) (costs.getD j []) = true := by
      by_contra hcon
      push_neg at hcon
      have : nonDominatedIn costs j = true :=
        (nonDominatedIn_iff costs j).2 fun i hi => by
          cases hdi : dominates (costs.getD i []) (costs.getD j []) with
          | false => rfl
          | true => exact absurd hdi (hcon i hi)
      rw [this] at hnd
      cases hnd
    obtain ⟨z, hz, hdzj, hndz⟩ := exists_nondominated_dominator costs k hk hj hdom
    cases he : (effUpTo costs costs.length).getD j false with
    | false => rfl
    | true =>
      exfalso
      have hez : (effUpTo costs costs.length).getD z false = true :=
        effUpTo_nondominated costs costs.length le_rfl z hz hndz
      have := effUpTo_no_internal costs costs.length le_rfl z hz j hj hez he
      rw [this] at hdzj
      cases hdzj

theorem exists_efficient (costs : List (List ℚ)) (k : Nat)
    (hk : ∀ r ∈ costs, r.length = k) (hne : costs ≠ []) :
    ∃ z, z < costs.length ∧ (is_pareto_efficient costs).getD z false = true := by
  have hlenD : ∀ x, x < costs.length → (costs.getD x []).length = k :=
    fun x hx => hk _ (getD_mem_of_lt costs [] hx)
  obtain ⟨z, hz, hmax⟩ := exists_maximal_mem
    (fun w z => dominates (costs.getD w []) (costs.getD z []) = true)
    (List.range costs.length)
    (fun hcon => hne (by
      have := List.range_eq_nil.mp hcon
      exact List.length_eq_zero.mp this))
    (fun a ha b hb c hc hab hbc => by
      have ha' := List.mem_range.mp ha
      have hb' := List.mem_range.mp hb
      have hc' := List.mem_range.mp hc
      exact dominates_trans (le_of_eq ((hlenD c hc').trans (hlenD b hb').symm)) hab hbc)
    (fun a _ ha => by
      have ha' : dominates (costs.getD a []) (costs.getD a []) = true := ha
      rw [dominates_irrefl] at ha'
      cases ha')
  have hzlt := List.mem_range.mp hz
  refine ⟨z, hzlt, ?_⟩
  rw [is_pareto_efficient_getD costs k hk hzlt]
  exact (nonDominatedIn_iff costs z).2 fun i hi => by
    cases hdi : dominates (costs.getD i []) (costs.getD z []) with
    | false => rfl
    | true => exact absurd hdi (hmax i (List.mem_range.mpr hi))

/-! ## Shape lemmas for the objective matrices -/

theorem rowVec_length (columns objs : List String) (r : String × List ℚ) :
    (rowVec columns objs r).length = objs.length := by
  simp [rowVec]

theorem applySign_length (maximize : List (String × Bool)) (objs : List String)
    (row : List ℚ) (h : row.length = objs.length) :
    (applySign maximize objs row).length = objs.length := by
  simp [applySign, h]

theorem signedMatrix_length (maximize : List (String × Bool)) (df : DataFrame)
    (objs : List String) :
    (signedMatrix maximize df objs).length = df.rows.length := by
  simp [signedMatrix, rawMatrix]

theorem signedMatrix_row_length (maximize : List (String × Bool)) (df : DataFrame)
    (objs : List String) :
    ∀ v ∈ signedMatrix maximize df objs, v.length = objs.length := by
  intro v hv
  rw [signedMatrix, rawMatrix, List.map_map] at hv
  obtain ⟨r, -, rfl⟩ := List.mem_map.mp hv
  exact applySign_length maximize objs _ (rowVec_length df.columns objs r)

theorem signedMatrix_getD (maximize : List (String × Bool)) (df : DataFrame)
    (objs : List String) {j : Nat} (hj : j < df.rows.length) :
    (signedMatrix maximize df objs).getD j []
      = applySign maximize objs (rowVec df.columns objs (df.rows.getD j ("", []))) := by
  rw [getD_eq_getElem_of_lt df.rows ("", []) hj]
  simp [signedMatrix, rawMatrix, List.map_map, List.getD_eq_getElem?_getD,
    List.getElem?_map, List.getElem?_eq_getElem hj]

/-! ## Unfolding `find_pareto_frontier` on a successful run -/

theorem find_pareto_frontier_ok {opt : ParetoOptimizer} {df : DataFrame}
    {objsArg : Option (List String)} {df' dfp : DataFrame}
    (h : find_pareto_frontier opt df objsArg = (Except.ok df', dfp)) :
    df' = { df with
      pareto_optimal := some (is_pareto_efficient (frontierMatrix opt df objsArg)) }
    ∧ dfp = df'
    ∧ 2 ≤ (activeObjectives opt df objsArg).length
    ∧ ((activeObjectives opt df objsArg).all fun o => df.columns.contains o) = true := by
  rw [find_pareto_frontier] at h
  simp only [frontierMatrix]
  split at h
  · exact absurd (congrArg Prod.fst h) (by simp)
  · split at h
    · exact absurd (congrArg Prod.fst h) (by simp)
    · rename_i h1 h2
      obtain ⟨hfst, hsnd⟩ := Prod.mk.injEq .. ▸ h
      have hdf' := (Except.ok.injEq ..) ▸ hfst
      refine ⟨by rw [← hdf'], by rw [← hsnd, ← hdf'], by omega, ?_⟩
      cases hall : (activeObjectives opt df objsArg).all fun o => df.columns.contains o
      · rw [hall] at h2; exact absurd rfl h2
      · rfl

/-! ## Pointwise description of the frontier mask -/

theorem nonDominatedIn_eq_rowNonDominated (costs : List (List ℚ)) (j : Nat) :
    nonDominatedIn costs j = rowNonDominated costs (costs.getD j []) := by
  unfold nonDominatedIn rowNonDominated
  congr 1
  cases hb : costs.any fun w => dominates w (costs.getD j []) with
  | true =>
    rw [List.any_eq_true] at hb ⊢
    obtain ⟨w, hw, hd⟩ := hb
    obtain ⟨i, hi, hgw⟩ := List.mem_iff_getElem.mp hw
    exact ⟨i, List.mem_range.mpr hi, by rw [getD_eq_getElem_of_lt _ _ hi, hgw]; exact hd⟩
  | false =>
    rw [List.any_eq_false] at hb
    rw [List.any_eq_false]
    intro i hi
    have hi' := List.mem_range.mp hi
    intro hcon
    exact hb (costs.getD i []) (getD_mem_of_lt costs [] hi') hcon

theorem frontier_mask_getD (opt : ParetoOptimizer) (df : DataFrame)
    (objsArg : Option (List String)) {j : Nat} (hj : j < df.rows.length) :
    (is_pareto_efficient (frontierMatrix opt df objsArg)).getD j false
      = nonDominatedIn (frontierMatrix opt df objsArg) j := by
  have hlen : j < (frontierMatrix opt df objsArg).length := by
    rw [frontierMatrix, signedMatrix_length]; exact hj
  exact is_pareto_efficient_getD _ (activeObjectives opt df objsArg).length
    (signedMatrix_row_length _ _ _) hlen

/-! ## Claim C1 -/

/-- **C1.** On a successful `find_pareto_frontier` run, the produced mask marks
a candidate `pareto_optimal` iff no other candidate dominates it on the
sign-normalized objective matrix; candidates with identical vectors that no
third candidate dominates are both marked efficient; and no two marked
candidates dominate each other. -/
theorem pareto_mask_iff_not_dominated
    (opt : ParetoOptimizer) (df : DataFrame) (objsArg : Option (List String))
    (df' dfp : DataFrame) (mask : List Bool)
    (hrun : find_pareto_frontier opt df objsArg = (Except.ok df', dfp))
    (hmask : df'.pareto_optimal = some mask) :
    (∀ j, j < df.rows.length →
      (mask.getD j false = true ↔
        ¬∃ i, i < df.rows.length ∧
          dominates ((frontierMatrix opt df objsArg).getD i [])
            ((frontierMatrix opt df objsArg).getD j []) = true))
    ∧ (∀ p q, p < df.rows.length → q < df.rows.length →
        (frontierMatrix opt df objsArg).getD p []
          = (frontierMatrix opt df objsArg).getD q [] →
        (∀ i, i < df.rows.length → i ≠ p → i ≠ q →
          dominates ((frontierMatrix opt df objsArg).getD i [])
            ((frontierMatrix opt df objsArg).getD p []) = false) →
        mask.getD p false = true ∧ mask.getD q false = true)
    ∧ (∀ p q, p < df.rows.length → q < df.rows.length →
        mask.getD p false = true → mask.getD q false = true →
        dominates ((frontierMatrix opt df objsArg).getD p [])
          ((frontierMatrix opt df objsArg).getD q []) = false) := by
  obtain ⟨hdf', -, -, -⟩ := find_pareto_frontier_ok hrun
  rw [hdf'] at hmask
  simp only [Option.some.injEq] at hmask
  have hn : (frontierMatrix opt df objsArg).length = df.rows.length := by
    rw [frontierMatrix, signedMatrix_length]
  have hpt : ∀ j, j < df.rows.length →
      mask.getD j false = nonDominatedIn (frontierMatrix opt df objsArg) j := by
    intro j hj
    rw [← hmask]
    exact frontier_mask_getD opt df objsArg hj
  have hiff : ∀ j, j < df.rows.length →
      (mask.getD j false = true ↔
        ∀ i, i < df.rows.length →
          dominates ((frontierMatrix opt df objsArg).getD i [])
            ((frontierMatrix opt df objsArg).getD j []) = false) := by
    intro j hj
    rw [hpt j hj, nonDominatedIn_iff, hn]
  refine ⟨?_, ?_, ?_⟩
  · intro j hj
    rw [hiff j hj]
    constructor
    · rintro hall ⟨i, hi, hd⟩
      rw [hall i hi] at hd
      cases hd
    · intro hne i hi
      cases hdi : dominates ((frontierMatrix opt df objsArg).getD i [])
          ((frontierMatrix opt df objsArg).getD j []) with
      | false => rfl
      | true => exact absurd ⟨i, hi, hdi⟩ hne
  · intro p q hp hq heq hother
    constructor
    · rw [hiff p hp]
      intro i hi
      by_cases hip : i = p
      · subst hip
        exact dominates_irrefl _
      · by_cases hiq : i = q
        · subst hiq
          rw [heq]
          exact dominates_irrefl _
        · exact hother i hi hip hiq
    · rw [hiff q hq]
      intro i hi
      rw [← heq]
      by_cases hip : i = p
      · subst hip
        exact dominates_irrefl _
      · by_cases hiq : i = q
        · subst hiq
          rw [heq]
          exact dominates_irrefl _
        · exact hother i hi hip hiq
  · intro p q hp hq hmp hmq
    exact (hiff q hq).1 hmq p hp

/-- Witness for C1 at the Scenario-A table, candidate `A`. -/
theorem pareto_mask_iff_not_dominated_witness :
    find_pareto_frontier c1Opt c1Df none = (Except.ok c1Df', c1Df')
    ∧ c1Df'.pareto_optimal = some [true, true, false, true]
    ∧ ([true, true, false, true].getD 0 false = true ↔
        ¬∃ i, i < c1Df.rows.length ∧
          dominates ((frontierMatrix c1Opt c1Df none).getD i [])
            ((frontierMatrix c1Opt c1Df none).getD 0 []) = true) :=
  ⟨by decide, by decide,
    (pareto_mask_iff_not_dominated c1Opt c1Df none c1Df' c1Df'
      [true, true, false, true] (by decide) (by decide)).1 0 (by decide)⟩

/-! ## Claim C2 -/

/-- **C2.** After a successful `find_pareto_frontier` run, every candidate not
marked `pareto_optimal` is dominated (on the sign-normalized matrix) by some
candidate that is marked `pareto_optimal`. -/
theorem dominated_candidates_have_efficient_dominator
    (opt : ParetoOptimizer) (df : DataFrame) (objsArg : Option (List String))
    (df' dfp : DataFrame) (mask : List Bool)
    (hrun : find_pareto_frontier opt df objsArg = (Except.ok df', dfp))
    (hmask : df'.pareto_optimal = some mask)
    {j : Nat} (hj : j < df.rows.length)
    (hfalse : mask.getD j false = false) :
    ∃ i, i < df.rows.length ∧ mask.getD i false = true ∧
      dominates ((frontierMatrix opt df objsArg).getD i [])
        ((frontierMatrix opt df objsArg).getD j []) = true := by
  obtain ⟨hdf', -, -, -⟩ := find_pareto_frontier_ok hrun
  rw [hdf'] at hmask
  simp only [Option.some.injEq] at hmask
  have hn : (frontierMatrix opt df objsArg).length = df.rows.length := by
    rw [frontierMatrix, signedMatrix_length]
  have hpt : ∀ i, i < df.rows.length →
      mask.getD i false = nonDominatedIn (frontierMatrix opt df objsArg) i := by
    intro i hi
    rw [← hmask]
    exact frontier_mask_getD opt df objsArg hi
  have hndj : nonDominatedIn (frontierMatrix opt df objsArg) j = false := by
    rw [← hpt j hj]
    exact hfalse
  have hdom : ∃ i, i < (frontierMatrix opt df objsArg).length ∧
      dominates ((frontierMatrix opt df objsArg).getD i [])
        ((frontierMatrix opt df objsArg).getD j []) = true := by
    by_contra hcon
    push_neg at hcon
    have : nonDominatedIn (frontierMatrix opt df objsArg) j = true :=
      (nonDominatedIn_iff _ j).2 fun i hi => by
        cases hdi : dominates ((frontierMatrix opt df objsArg).getD i [])
            ((frontierMatrix opt df objsArg).getD j []) with
        | false => rfl
        | true => exact absurd hdi (hcon i hi)
    rw [this] at hndj
    cases hndj
  obtain ⟨z, hz, hdzj, hndz⟩ := exists_nondominated_dominator
    (frontierMatrix opt df objsArg) (activeObjectives opt df objsArg).length
    (signedMatrix_row_length _ _ _) (hn ▸ hj) hdom
  refine ⟨z, hn ▸ hz, ?_, hdzj⟩
  rw [hpt z (hn ▸ hz), hndz]

/-- Witness for C2 at the Scenario-A table, candidate `C` (dominated). -/
theorem dominated_candidates_have_efficient_dominator_witness :
    (2 < c1Df.rows.length ∧ [true, true, false, true].getD 2 false = false)
    ∧ ∃ i, i < c1Df.rows.length ∧ [true, true, false, true].getD i false = true ∧
        dominates ((frontierMatrix c1Opt c1Df none).getD i [])
          ((frontierMatrix c1Opt c1Df none).getD 2 []) = true :=
  ⟨⟨by decide, by decide⟩,
    dominated_candidates_have_efficient_dominator c1Opt c1Df none c1Df' c1Df'
      [true, true, false, true] (by decide) (by decide) (by decide) (by decide)⟩

/-! ## Claim C3 -/

/-- **C3.** The minimize objective is negated before comparison: on
X=(0.8, 10.0), Y=(0.8, 20.0) the signed matrix is [[0.8, -10], [0.8, -20]],
X's signed vector dominates Y's, and `find_pareto_frontier` marks X
`pareto_optimal` and Y not. -/
theorem minimize_objectives_negated_example :
    signedMatrix c3Opt.maximize c3Df ["o1", "o2"]
      = [[Rat.divInt 4 5, -10], [Rat.divInt 4 5, -20]]
    ∧ dominates [Rat.divInt 4 5, -10] [Rat.divInt 4 5, -20] = true
    ∧ find_pareto_frontier c3Opt c3Df none = (Except.ok c3Df', c3Df') :=
  ⟨by decide, by decide, by decide⟩

/-! ## Claim C4: layer ranking -/

theorem getD_eq_default_of_le {α : Type} (l : List α) (d : α) {j : Nat}
    (h : l.length ≤ j) : l.getD j d = d := by
  simp [List.getD_eq_getElem?_getD, List.getElem?_eq_none h]

theorem rankStep_fst_length (maximize : List (String × Bool)) (columns : List String)
    (allRows : List (String × List ℚ)) (objs : List String)
    (st : List Int × List Bool) (layer : Nat) :
    (rankStep maximize columns allRows objs st layer).1.length = st.1.length := by
  unfold rankStep
  split
  · simp
  · rfl

theorem rankStep_bound (maximize : List (String × Bool)) (columns : List String)
    (allRows : List (String × List ℚ)) (objs : List String)
    (st : List Int × List Bool) (layer : Nat) (hlayer : layer ≤ 10)
    (hst : ∀ x ∈ st.1, x = -1 ∨ (0 ≤ x ∧ x ≤ 10)) :
    ∀ x ∈ (rankStep maximize columns allRows objs st layer).1,
      x = -1 ∨ (0 ≤ x ∧ x ≤ 10) := by
  unfold rankStep
  split
  · intro x hx
    simp only [List.mem_map, List.mem_range] at hx
    obtain ⟨i, hi, rfl⟩ := hx
    split
    · right
      omega
    · exact hst _ (getD_mem_of_lt _ _ hi)
  · exact hst

theorem rankStep_preserve (maximize : List (String × Bool)) (columns : List String)
    (allRows : List (String × List ℚ)) (objs : List String)
    (st : List Int × List Bool) (layer : Nat) {z : Nat}
    (hz : st.2.getD z false = false) :
    (rankStep maximize columns allRows objs st layer).1.getD z (-1) = st.1.getD z (-1)
    ∧ (rankStep maximize columns allRows objs st layer).2.getD z false = false := by
  unfold rankStep
  split
  · rename_i hany
    have hznot : ∀ (mask : List Bool),
        (((((List.range allRows.length).filter fun i => st.2.getD i false).zip
          mask).filter fun p => p.2).map fun p => p.1).contains z = false := by
      intro mask
      cases hc : (((((List.range allRows.length).filter fun i => st.2.getD i false).zip
          mask).filter fun p => p.2).map fun p => p.1).contains z with
      | false => rfl
      | true =>
        exfalso
        obtain ⟨p, hp, hpz⟩ := List.mem_map.mp (List.elem_iff.mp hc)
        obtain ⟨a, b⟩ := p
        have haz : a = z := hpz
        have hzip : (a, b) ∈ ((List.range allRows.length).filter fun i =>
            st.2.getD i false).zip mask := (List.mem_filter.mp hp).1
        have hfst : a ∈ (List.range allRows.length).filter fun i =>
            st.2.getD i false := (List.of_mem_zip hzip).1
        have hgot : st.2.getD a false = true := (List.mem_filter.mp hfst).2
        rw [haz, hz] at hgot
        cases hgot
    constructor
    · by_cases hlt : z < st.1.length
      · rw [getD_range_map _ _ _ _ hlt, hznot _]
        simp
      · rw [getD_eq_default_of_le _ _ (by simp; omega),
          getD_eq_default_of_le _ _ (by omega)]
    · by_cases hlt : z < st.2.length
      · rw [getD_range_map _ _ _ _ hlt, hznot _]
        rw [if_neg (by simp)]
        exact hz
      · rw [getD_eq_default_of_le _ _ (by simp; omega)]
  · exact ⟨rfl, hz⟩

theorem rankFold_fst_length (maximize : List (String × Bool)) (columns : List String)
    (allRows : List (String × List ℚ)) (objs : List String) :
    ∀ (layers : List Nat) (st : List Int × List Bool),
    ((layers.foldl (rankStep maximize columns allRows objs) st).1).length
      = st.1.length := by
  intro layers
  induction layers with
  | nil => intro st; rfl
  | cons a t ih =>
    intro st
    rw [List.foldl_cons, ih, rankStep_fst_length]

theorem rankFold_bound (maximize : List (String × Bool)) (columns : List String)
    (allRows : List (String × List ℚ)) (objs : List String) :
    ∀ (layers : List Nat) (st : List Int × List Bool),
    (∀ x ∈ layers, x ≤ 10) → (∀ x ∈ st.1, x = -1 ∨ (0 ≤ x ∧ x ≤ 10)) →
    ∀ x ∈ (layers.foldl (rankStep maximize columns allRows objs) st).1,
      x = -1 ∨ (0 ≤ x ∧ x ≤ 10) := by
  intro layers
  induction layers with
  | nil => intro st _ hst; exact hst
  | cons a t ih =>
    intro st hlayers hst
    rw [List.foldl_cons]
    exact ih _ (fun x hx => hlayers x (List.Mem.tail a hx))
      (rankStep_bound maximize columns allRows objs st a
        (hlayers a (List.mem_cons_self a t)) hst)

theorem rankFold_preserve (maximize : List (String × Bool)) (columns : List String)
    (allRows : List (String × List ℚ)) (objs : List String) :
    ∀ (layers : List Nat) (st : List Int × List Bool) (z : Nat),
    st.2.getD z false = false →
    ((layers.foldl (rankStep maximize columns allRows objs) st).1).getD z (-1)
      = st.1.getD z (-1) := by
  intro layers
  induction layers with
  | nil => intro st z _; rfl
  | cons a t ih =>
    intro st z hz
    obtain ⟨h1, h2⟩ := rankStep_preserve maximize columns allRows objs st a hz
    rw [List.foldl_cons, ih _ z h2, h1]

theorem rank_first_layer (maximize : List (String × Bool)) (columns : List String)
    (allRows : List (String × List ℚ)) (objs : List String) (hne : allRows ≠ []) :
    ∃ z, z < allRows.length ∧
      (rankStep maximize columns allRows objs
        (List.replicate allRows.length (-1),
         List.replicate allRows.length true) 0).1.getD z (-1) = 0
      ∧ (rankStep maximize columns allRows objs
        (List.replicate allRows.length (-1),
         List.replicate allRows.length true) 0).2.getD z false = false := by
  have hn : 0 < allRows.length := List.length_pos.2 hne
  have hany : (List.replicate allRows.length true).any id = true := by
    rw [List.any_eq_true]
    exact ⟨true, List.mem_replicate.mpr ⟨by omega, rfl⟩, rfl⟩
  have hidxs : ((List.range allRows.length).filter fun i =>
      (List.replicate allRows.length true).getD i false) = List.range allRows.length := by
    apply List.filter_eq_self.mpr
    intro a ha
    rw [getD_replicate_of_lt true false _ _ (List.mem_range.mp ha)]
  have hrowlen : ∀ v ∈ (((List.range allRows.length).map fun i =>
      rowVec columns objs (allRows.getD i ("", []))).map (applySign maximize objs)),
      v.length = objs.length := by
    intro v hv
    obtain ⟨w, hw, rfl⟩ := List.mem_map.mp hv
    obtain ⟨i, -, rfl⟩ := List.mem_map.mp hw
    exact applySign_length maximize objs _ (rowVec_length columns objs _)
  have hlen : ((((List.range allRows.length).map fun i =>
      rowVec columns objs (allRows.getD i ("", []))).map
        (applySign maximize objs)).length) = allRows.length := by
    simp
  have hsne : (((List.range allRows.length).map fun i =>
      rowVec columns objs (allRows.getD i ("", []))).map (applySign maximize objs)) ≠ [] := by
    intro hcon
    rw [hcon] at hlen
    exact hne (List.length_eq_zero.mp hlen.symm)
  obtain ⟨z, hz, hzeff⟩ := exists_efficient _ objs.length hrowlen hsne
  have hzn : z < allRows.length := hlen ▸ hz
  have hzmask : z < (is_pareto_efficient (((List.range allRows.length).map fun i =>
      rowVec columns objs (allRows.getD i ("", []))).map
        (applySign maximize objs))).length := by
    rw [is_pareto_efficient_length]; exact hz
  have hzpair : (z, true) ∈ (List.range allRows.length).zip
      (is_pareto_efficient (((List.range allRows.length).map fun i =>
        rowVec columns objs (allRows.getD i ("", []))).map (applySign maximize objs))) := by
    apply List.mem_iff_getElem?.mpr
    refine ⟨z, ?_⟩
    rw [List.getElem?_zip_eq_some]
    refine ⟨List.getElem?_range hzn, ?_⟩
    rw [List.getElem?_eq_getElem hzmask, ← getD_eq_getElem_of_lt _ false hzmask, hzeff]
  have hzpi : ∀ (l : List Nat), z ∈ l → l.contains z = true := fun l hl => List.elem_iff.mpr hl
  unfold rankStep
  rw [if_pos hany]
  simp only [hidxs]
  refine ⟨z, hzn, ?_, ?_⟩
  · rw [getD_range_map _ _ _ _ (by simp [hzn])]
    rw [hzpi _ (List.mem_map.mpr ⟨(z, true), List.mem_filter.mpr ⟨hzpair, rfl⟩, rfl⟩)]
    simp
  · rw [getD_range_map _ _ _ _ (by simp [hzn])]
    rw [hzpi _ (List.mem_map.mpr ⟨(z, true), List.mem_filter.mpr ⟨hzpair, rfl⟩, rfl⟩)]
    simp

/-- **C4 (amended).** `rank_pareto_layers` produces a `pareto_rank` column with
one entry per candidate; every entry is either the sentinel `-1` or a layer
index in `[0, 10]` (the break fires after the eleventh layer was assigned, so
ranks up to `10` — not `9` — occur); and on a nonempty table layer `0` is
assigned to some candidate. -/
theorem rank_layers_bounds (opt : ParetoOptimizer) (df : DataFrame)
    (objsArg : Option (List String)) :
    ∃ l, (rank_pareto_layers opt df objsArg).1.pareto_rank = some l
      ∧ l.length = df.rows.length
      ∧ (∀ x ∈ l, x = -1 ∨ (0 ≤ x ∧ x ≤ 10))
      ∧ (df.rows ≠ [] → (0 : Int) ∈ l) := by
  refine ⟨_, rfl, ?_, ?_, ?_⟩
  · rw [rankFold_fst_length]
    simp
  · apply rankFold_bound
    · intro x hx
      have := List.mem_range.mp hx
      omega
    · intro x hx
      left
      exact (List.eq_of_mem_replicate hx)
  · intro hne
    obtain ⟨z, hzn, hz0, hzrem⟩ := rank_first_layer opt.maximize df.columns df.rows
      (activeObjectives opt df objsArg) hne
    have hsplit : List.range 11 = 0 :: List.map Nat.succ (List.range 10) :=
      List.range_succ_eq_map 10
    have hfold :
        ((List.range 11).foldl (rankStep opt.maximize df.columns df.rows
            (activeObjectives opt df objsArg))
          (List.replicate df.rows.length (-1), List.replicate df.rows.length true)).1.getD z (-1)
          = 0 := by
      rw [hsplit, List.foldl_cons]
      rw [rankFold_preserve _ _ _ _ _ _ z hzrem]
      exact hz0
    have hlenf :
        z < ((List.range 11).foldl (rankStep opt.maximize df.columns df.rows
            (activeObjectives opt df objsArg))
          (List.replicate df.rows.length (-1), List.replicate df.rows.length true)).1.length := by
      rw [rankFold_fst_length]
      simpa using hzn
    rw [← hfold, getD_eq_getElem_of_lt _ _ hlenf]
    exact List.getElem_mem hlenf

/-- **C4 counterexample.** On the twelve-candidate chain the code assigns the
rank `10` (an eleventh layer), contradicting the claim that no assigned
`pareto_rank` exceeds `9`; the candidate beyond the cap keeps `-1`. -/
theorem rank_exceeds_nine :
    (rank_pareto_layers c4Opt c4Df none).1.pareto_rank
      = some [0, 1, 2, 3, 4, 5, 6, 7, 8, 9, 10, -1]
    ∧ (10 : Int) ∈ [0, 1, 2, 3, 4, 5, 6, 7, 8, 9, 10, (-1 : Int)]
    ∧ ¬((10 : Int) ≤ 9) :=
  ⟨by decide, by decide, by decide⟩

/-- Witness for C4 at the twelve-candidate chain. -/
theorem rank_layers_bounds_witness :
    c4Df.rows ≠ [] ∧
    ∃ l, (rank_pareto_layers c4Opt c4Df none).1.pareto_rank = some l
      ∧ (0 : Int) ∈ l := by
  refine ⟨by decide, ?_⟩
  obtain ⟨l, h1, -, -, h4⟩ := rank_layers_bounds c4Opt c4Df none
  exact ⟨l, h1, h4 (by decide)⟩

/-! ## Claim C6: behavior on an empty table -/

/-- **C6 (amended).** `find_pareto_frontier` has no empty-table check and
never produces the spec's `EmptyDataset` kind.  On a table with zero
candidates it fails only through the generic guards — fewer than two active
objectives (`ValueError`) or a requested-but-missing column (`KeyError`),
each leaving the table untouched — and otherwise it returns normally, with
an empty `pareto_optimal` column added to the caller's table (the
frontier-percentage summary computes NumPy `nan` rather than raising). -/
theorem empty_table_no_emptydataset (opt : ParetoOptimizer) (df : DataFrame)
    (objsArg : Option (List String)) (h : df.rows = []) :
    (find_pareto_frontier opt df objsArg).1 ≠ Except.error PError.emptyDataset
    ∧ (find_pareto_frontier opt df objsArg
          = (Except.error PError.invalidObjectiveCount, df)
      ∨ find_pareto_frontier opt df objsArg
          = (Except.error PError.keyError, df)
      ∨ find_pareto_frontier opt df objsArg
          = (Except.ok { df with pareto_optimal := some [] },
             { df with pareto_optimal := some [] })) := by
  obtain ⟨cols, rows, po, pr⟩ := df
  have h' : rows = [] := h
  subst h'
  simp only [find_pareto_frontier]
  split
  · exact ⟨fun hco => PError.noConfusion (Except.error.inj hco), Or.inl rfl⟩
  · split
    · exact ⟨fun hco => PError.noConfusion (Except.error.inj hco),
        Or.inr (Or.inl rfl)⟩
    · exact ⟨fun hco => Except.noConfusion hco, Or.inr (Or.inr rfl)⟩

/-- Witness for C6 at the concrete empty table. -/
theorem empty_table_no_emptydataset_witness :
    c6Df.rows = []
    ∧ (find_pareto_frontier c6Opt c6Df none).1 ≠ Except.error PError.emptyDataset
    ∧ (find_pareto_frontier c6Opt c6Df none
          = (Except.error PError.invalidObjectiveCount, c6Df)
      ∨ find_pareto_frontier c6Opt c6Df none
          = (Except.error PError.keyError, c6Df)
      ∨ find_pareto_frontier c6Opt c6Df none
          = (Except.ok { c6Df with pareto_optimal := some [] },
             { c6Df with pareto_optimal := some [] })) :=
  ⟨rfl, (empty_table_no_emptydataset c6Opt c6Df none rfl).1,
    (empty_table_no_emptydataset c6Opt c6Df none rfl).2⟩

/-- **C6 counterexample.** On the empty table with both objective columns the
code does not fail at all: the percentage summary divides NumPy scalars, so
`0/0` yields `nan` with a `RuntimeWarning` and the call returns `ok` — and
the caller's table has gained the (empty) `pareto_optimal` column.  So the
claim's fail-with-`EmptyDataset`, fail-fast and no-output parts are all
false at this input. -/
theorem empty_table_returns_ok_with_column :
    (find_pareto_frontier c6Opt c6Df none).1
      = Except.ok { c6Df with pareto_optimal := some [] }
    ∧ (find_pareto_frontier c6Opt c6Df none).1 ≠ Except.error PError.emptyDataset
    ∧ (find_pareto_frontier c6Opt c6Df none).2 ≠ c6Df :=
  ⟨by decide, by decide, by decide⟩

/-! ## Claim C7: the fewer-than-two-objectives guard -/

/-- **C7 (amended).** With the objectives argument omitted, fewer than two of
the configured objective names present as columns triggers the
`InvalidObjectiveCount` `ValueError`, failing fast with the caller's table
unchanged (no `pareto_optimal` column added).  With an explicit objectives
list, the fewer-than-two check applies to the full requested list regardless
of column presence, and a requested-but-missing column instead raises a
`KeyError` (also before any column is added). -/
theorem objective_count_validation :
    (∀ (opt : ParetoOptimizer) (df : DataFrame),
      (opt.objectives.filter fun o => df.columns.contains o).length < 2 →
      find_pareto_frontier opt df none
        = (Except.error PError.invalidObjectiveCount, df))
    ∧ (∀ (opt : ParetoOptimizer) (df : DataFrame) (objs : List String),
      objs.length < 2 →
      find_pareto_frontier opt df (some objs)
        = (Except.error PError.invalidObjectiveCount, df))
    ∧ (∀ (opt : ParetoOptimizer) (df : DataFrame) (objs : List String),
      2 ≤ objs.length →
      (objs.all fun o => df.columns.contains o) = false →
      find_pareto_frontier opt df (some objs)
        = (Except.error PError.keyError, df)) := by
  refine ⟨?_, ?_, ?_⟩
  · intro opt df hlt
    simp only [find_pareto_frontier, activeObjectives]
    rw [if_pos hlt]
  · intro opt df objs hlt
    simp only [find_pareto_frontier, activeObjectives]
    rw [if_pos hlt]
  · intro opt df objs hge hall
    simp only [find_pareto_frontier, activeObjectives]
    rw [if_neg (by omega), if_pos (by rw [hall]; rfl)]

/-- Witness for C7 at the concrete one-column table. -/
theorem objective_count_validation_witness :
    ((c7Opt.objectives.filter fun o => c7Df.columns.contains o).length < 2
      ∧ find_pareto_frontier c7Opt c7Df none
          = (Except.error PError.invalidObjectiveCount, c7Df))
    ∧ ((["a"] : List String).length < 2
      ∧ find_pareto_frontier c7Opt c7Df (some ["a"])
          = (Except.error PError.invalidObjectiveCount, c7Df))
    ∧ (2 ≤ (["a", "zzz"] : List String).length
      ∧ ((["a", "zzz"] : List String).all fun o => c7Df.columns.contains o) = false
      ∧ find_pareto_frontier c7Opt c7Df (some ["a", "zzz"])
          = (Except.error PError.keyError, c7Df)) :=
  ⟨⟨by decide, objective_count_validation.1 c7Opt c7Df (by decide)⟩,
    ⟨by decide, objective_count_validation.2.1 c7Opt c7Df ["a"] (by decide)⟩,
    ⟨by decide, by decide,
      objective_count_validation.2.2 c7Opt c7Df ["a", "zzz"] (by decide) (by decide)⟩⟩

/-- **C7 counterexample.** With the explicit request `["a", "zzz"]` on a table
having only column `"a"`, fewer than two requested names exist as columns, yet
the code raises `KeyError` (from `df[objectives]`), not the
`InvalidObjectiveCount` `ValueError` the claim demands. -/
theorem missing_column_keyerror_not_invalidcount :
    (find_pareto_frontier c7Opt c7Df (some ["a", "zzz"])).1
      = Except.error PError.keyError
    ∧ (find_pareto_frontier c7Opt c7Df (some ["a", "zzz"])).1
      ≠ Except.error PError.invalidObjectiveCount :=
  ⟨by decide, by decide⟩

/-! ## Claim C9: representative passthrough -/

/-- **C9.** When the Pareto-optimal subset has size at most `num_designs`,
`select_representative_designs` returns exactly that subset: the rows are the
flagged rows of the table in their original relative order (a filter of the
input rows), the columns are unchanged, and distinct `design_id`s stay
distinct (no duplicates, no omissions). -/
theorem representative_passthrough (opt : ParetoOptimizer) (df : DataFrame)
    (k : Nat) (objsArg : Option (List String)) (mask : List Bool)
    (hmask : df.pareto_optimal = some mask)
    (hsize : (filteredByMask df).rows.length ≤ k) :
    select_representative_designs opt df k objsArg = filteredByMask df
    ∧ (filteredByMask df).rows
        = (((df.rows.zip mask).filter fun p => p.2).map fun p => p.1)
    ∧ (filteredByMask df).columns = df.columns
    ∧ (mask.length = df.rows.length → (df.rows.map Prod.fst).Nodup →
        ((filteredByMask df).rows.map Prod.fst).Nodup) := by
  refine ⟨?_, ?_, rfl, ?_⟩
  · simp only [select_representative_designs]
    rw [if_pos hsize]
  · simp [filteredByMask, hmask]
  · intro hlen hnodup
    have hsub : List.Sublist (filteredByMask df).rows df.rows := by
      have h1 : List.Sublist ((df.rows.zip mask).filter fun p => p.2)
          (df.rows.zip mask) := List.filter_sublist _
      have h2 := h1.map fun p => p.1
      have h3 : (df.rows.zip mask).map (fun p => p.1) = df.rows := by
        rw [show (fun p : (String × List ℚ) × Bool => p.1) = Prod.fst from rfl]
        exact List.map_fst_zip df.rows mask (by omega)
      rw [h3] at h2
      simpa [filteredByMask, hmask] using h2
    exact List.Nodup.sublist (hsub.map Prod.fst) hnodup

/-- Witness for C9 at the concrete three-candidate table with `k = 5`. -/
theorem representative_passthrough_witness :
    c9Df.pareto_optimal = some [true, true, false]
    ∧ (filteredByMask c9Df).rows.length ≤ 5
    ∧ select_representative_designs c9Opt c9Df 5 none = filteredByMask c9Df
    ∧ (filteredByMask c9Df).rows = [("A", [3, 1]), ("B", [1, 3])] :=
  ⟨by decide, by decide,
    (representative_passthrough c9Opt c9Df 5 none [true, true, false]
      (by decide) (by decide)).1,
    by decide⟩

/-! ## Claim C10: purity of `rank_pareto_layers` vs in-place `find_pareto_frontier` -/

/-- **C10.** `rank_pareto_layers` works on a copy: the caller's table after
the call is exactly the input, and the returned table differs from the input
only in the `pareto_rank` column (columns, rows and `pareto_optimal` are
unchanged).  By contrast `find_pareto_frontier` adds its column to the
caller's table in place: on the concrete table the caller's table after the
call differs from the input and is the very table the method returns. -/
theorem rank_layers_pure_find_in_place :
    (∀ (opt : ParetoOptimizer) (df : DataFrame) (objsArg : Option (List String)),
      (rank_pareto_layers opt df objsArg).2 = df
      ∧ (rank_pareto_layers opt df objsArg).1.columns = df.columns
      ∧ (rank_pareto_layers opt df objsArg).1.rows = df.rows
      ∧ (rank_pareto_layers opt df objsArg).1.pareto_optimal = df.pareto_optimal)
    ∧ (find_pareto_frontier c10Opt c10Df none).2 ≠ c10Df
    ∧ (find_pareto_frontier c10Opt c10Df none).1
        = Except.ok (find_pareto_frontier c10Opt c10Df none).2 :=
  ⟨fun _ _ _ => ⟨rfl, rfl, rfl, rfl⟩, by decide, by decide⟩

/-! ## Claim C8: order invariance -/

theorem perm_any {α : Type} {l1 l2 : List α} (h : l1.Perm l2) (f : α → Bool) :
    l1.any f = l2.any f := by
  cases h2 : l2.any f with
  | true =>
    rw [List.any_eq_true] at h2 ⊢
    obtain ⟨x, hx, hfx⟩ := h2
    exact ⟨x, h.mem_iff.mpr hx, hfx⟩
  | false =>
    rw [List.any_eq_false] at h2
    rw [List.any_eq_false]
    intro x hx
    exact h2 x (h.mem_iff.mp hx)

theorem rowNonDominated_perm {c1 c2 : List (List ℚ)} (h : c1.Perm c2) (v : List ℚ) :
    rowNonDominated c1 v = rowNonDominated c2 v := by
  unfold rowNonDominated
  rw [perm_any h]

theorem signedMatrix_eq_map (maximize : List (String × Bool)) (df : DataFrame)
    (objs : List String) :
    signedMatrix maximize df objs
      = df.rows.map fun r => applySign maximize objs (rowVec df.columns objs r) := by
  rw [signedMatrix, rawMatrix, List.map_map]
  rfl

theorem zip_mask_filter_map {α : Type} (p : α → Bool) :
    ∀ (L : List α) (mask : List Bool), mask.length = L.length →
    (∀ j (h : j < L.length), mask.getD j false = p (L[j])) →
    (((L.zip mask).filter fun x => x.2).map fun x => x.1) = L.filter p := by
  intro L
  induction L with
  | nil => intro mask _ _; simp
  | cons a t ih =>
    intro mask hlen hpt
    cases mask with
    | nil => simp at hlen
    | cons b mb =>
      have hb : b = p a := hpt 0 (by simp)
      subst hb
      have hlen' : mb.length = t.length := by simpa using hlen
      have hpt' : ∀ j (h : j < t.length), mb.getD j false = p (t[j]) := by
        intro j hj
        have := hpt (j + 1) (by simpa using Nat.succ_lt_succ hj)
        simpa using this
      rw [List.zip_cons_cons]
      cases hpa : p a <;> simp [List.filter_cons, hpa, ih mb hlen' hpt']

theorem find_pareto_frontier_success (opt : ParetoOptimizer) (df : DataFrame)
    (objs : List String) (h2 : 2 ≤ objs.length)
    (hall : (objs.all fun o => df.columns.contains o) = true) :
    find_pareto_frontier opt df (some objs)
      = (Except.ok { df with
          pareto_optimal := some (is_pareto_efficient (signedMatrix opt.maximize df objs)) },
         { df with
          pareto_optimal := some (is_pareto_efficient (signedMatrix opt.maximize df objs)) }) := by
  simp only [find_pareto_frontier, activeObjectives]
  rw [if_neg (by omega), if_neg (by rw [hall]; simp)]

theorem paretoIds_find_eq (opt : ParetoOptimizer) (df : DataFrame)
    (objs : List String) (h2 : 2 ≤ objs.length)
    (hall : (objs.all fun o => df.columns.contains o) = true) :
    paretoIds (find_pareto_frontier opt df (some objs)).2
      = ((df.rows.filter fun r => rowNonDominated (signedMatrix opt.maximize df objs)
          (applySign opt.maximize objs (rowVec df.columns objs r))).map Prod.fst) := by
  rw [find_pareto_frontier_success opt df objs h2 hall]
  simp only [paretoIds]
  have hlen : (is_pareto_efficient (signedMatrix opt.maximize df objs)).length
      = df.rows.length := by
    rw [is_pareto_efficient_length, signedMatrix_length]
  have hpt : ∀ j (h : j < df.rows.length),
      (is_pareto_efficient (signedMatrix opt.maximize df objs)).getD j false
        = rowNonDominated (signedMatrix opt.maximize df objs)
            (applySign opt.maximize objs (rowVec df.columns objs (df.rows[j]))) := by
    intro j hj
    have hjm : j < (signedMatrix opt.maximize df objs).length := by
      rw [signedMatrix_length]; exact hj
    rw [is_pareto_efficient_getD _ objs.length (signedMatrix_row_length _ _ _) hjm,
      nonDominatedIn_eq_rowNonDominated, signedMatrix_getD _ _ _ hj,
      getD_eq_getElem_of_lt df.rows ("", []) hj]
  have hz := zip_mask_filter_map
    (fun r => rowNonDominated (signedMatrix opt.maximize df objs)
      (applySign opt.maximize objs (rowVec df.columns objs r)))
    df.rows (is_pareto_efficient (signedMatrix opt.maximize df objs)) hlen hpt
  have hmm : (((df.rows.zip (is_pareto_efficient (signedMatrix opt.maximize df objs))).filter
        fun x => x.2).map fun x => x.1.1)
      = ((((df.rows.zip (is_pareto_efficient (signedMatrix opt.maximize df objs))).filter
        fun x => x.2).map fun x => x.1).map Prod.fst) := by
    rw [List.map_map]
    rfl
  rw [hmm, hz]

/-- **C8.** Permuting the candidate rows of a table (with the same columns)
yields, after `find_pareto_frontier`, the same multiset — hence the same
set — of `design_id`s marked `pareto_optimal`. -/
theorem order_invariance (opt : ParetoOptimizer) (df df2 : DataFrame)
    (objs : List String) (hcols : df2.columns = df.columns)
    (hperm : df2.rows.Perm df.rows) (h2 : 2 ≤ objs.length)
    (hall : (objs.all fun o => df.columns.contains o) = true)
    (_hne : df.rows ≠ []) :
    (paretoIds (find_pareto_frontier opt df2 (some objs)).2).Perm
      (paretoIds (find_pareto_frontier opt df (some objs)).2) := by
  rw [paretoIds_find_eq opt df2 objs h2 (by rw [hcols]; exact hall),
    paretoIds_find_eq opt df objs h2 hall]
  apply List.Perm.map
  have hmat : (signedMatrix opt.maximize df2 objs).Perm
      (signedMatrix opt.maximize df objs) := by
    rw [signedMatrix_eq_map, signedMatrix_eq_map, hcols]
    exact hperm.map _
  have hcongr : (df2.rows.filter fun r =>
        rowNonDominated (signedMatrix opt.maximize df2 objs)
          (applySign opt.maximize objs (rowVec df2.columns objs r)))
      = df2.rows.filter fun r =>
        rowNonDominated (signedMatrix opt.maximize df objs)
          (applySign opt.maximize objs (rowVec df.columns objs r)) := by
    apply List.filter_congr
    intro x _
    rw [hcols, rowNonDominated_perm hmat]
  rw [hcongr]
  exact hperm.filter _

/-- Witness for C8 at the concrete swapped tables. -/
theorem order_invariance_witness :
    c8Df2.rows.Perm c8Df.rows
    ∧ (paretoIds (find_pareto_frontier c8Opt c8Df2 (some ["a", "b"])).2).Perm
        (paretoIds (find_pareto_frontier c8Opt c8Df (some ["a", "b"])).2) :=
  ⟨by decide,
    order_invariance c8Opt c8Df c8Df2 ["a", "b"] (by decide) (by decide)
      (by decide) (by decide) (by decide)⟩

/-! ## Claim C5: trade-off classification -/

theorem pearson_anticorrelated : pearson [(0:ℝ), 1] [(1:ℝ), 0] = -1 := by
  simp only [pearson, listMean]
  norm_num [List.zip, List.zipWith]
  rw [← mul_inv, Real.mul_self_sqrt (by norm_num : (0:ℝ) ≤ 2)]
  norm_num

theorem c5_label_eq : analyzeTradeOffLabel c5Df "o1" "o2"
    = "Strong trade-off (negative correlation)" := by
  have hfilter : filteredByMask c5Df =
      { columns := ["o1", "o2"], rows := [("a", [0, 1]), ("b", [1, 0])],
        pareto_optimal := some [true, true], pareto_rank := none } := by decide
  have hidx1 : (["o1", "o2"].indexOf "o1") = 0 := by decide
  have hidx2 : (["o1", "o2"].indexOf "o2") = 1 := by decide
  simp only [analyzeTradeOffLabel, hfilter, hidx1, hidx2]
  norm_num
  rw [pearson_anticorrelated]
  simp only [tradeOffLabel]
  rw [if_pos (by norm_num : (-1 : ℝ) < -(3 / 10))]

/-- **C5 (amended).** `analyze_trade_offs` classifies a pair by its Pearson
correlation over the `pareto_optimal` subset with the fixed thresholds of the
claim, but the emitted labels are capitalized: `corr < -0.3` yields exactly
"Strong trade-off (negative correlation)", `corr > 0.3` yields exactly
"Aligned objectives (positive correlation)", and otherwise exactly
"Independent objectives"; a perfectly anti-correlated frontier pair
(`r = -1`) receives the first label. -/
theorem tradeoff_classification :
    (∀ r : ℝ, r < -(3 / 10) →
      tradeOffLabel r = "Strong trade-off (negative correlation)")
    ∧ (∀ r : ℝ, 3 / 10 < r →
      tradeOffLabel r = "Aligned objectives (positive correlation)")
    ∧ (∀ r : ℝ, -(3 / 10) ≤ r → r ≤ 3 / 10 →
      tradeOffLabel r = "Independent objectives")
    ∧ pearson [(0:ℝ), 1] [(1:ℝ), 0] = -1
    ∧ analyzeTradeOffLabel c5Df "o1" "o2"
        = "Strong trade-off (negative correlation)" := by
  refine ⟨?_, ?_, ?_, pearson_anticorrelated, c5_label_eq⟩
  · intro r h
    simp only [tradeOffLabel]
    rw [if_pos h]
  · intro r h
    simp only [tradeOffLabel]
    rw [if_neg (by linarith), if_pos h]
  · intro r h1 h2
    simp only [tradeOffLabel]
    rw [if_neg (by linarith), if_neg (not_lt.mpr h2)]

/-- Witness for C5 at the thresholds' three regions. -/
theorem tradeoff_classification_witness :
    tradeOffLabel (-1) = "Strong trade-off (negative correlation)"
    ∧ tradeOffLabel 1 = "Aligned objectives (positive correlation)"
    ∧ tradeOffLabel 0 = "Independent objectives" :=
  ⟨tradeoff_classification.1 (-1) (by norm_num),
    tradeoff_classification.2.1 1 (by norm_num),
    tradeoff_classification.2.2.1 0 (by norm_num) (by norm_num)⟩

/-- **C5 counterexample.** On the perfectly anti-correlated frontier the code
produces the capitalized label "Strong trade-off (negative correlation)", so
the claim's exact lowercase label "strong trade-off (negative correlation)"
is not what the code emits. -/
theorem tradeoff_label_case_mismatch :
    analyzeTradeOffLabel c5Df "o1" "o2" ≠ "strong trade-off (negative correlation)" := by
  rw [c5_label_eq]
  decide

end Pareto
